import Mathlib

/-!
Shallow embedding of `backend/ai_generator.py`: the `AIGenerator` class and its
tool-augmented generation loop (`generate_response`, `_handle_tool_execution`,
`_extract_text_response`).  The Anthropic client is modelled as an oracle
mapping the index of a model call to the response the model returns for it; the
tool manager is a function from tool name and keyword input to either a result
string or a raised exception message.  The embedding records a trace: the API
parameters of every model call, every dispatcher invocation (name and input),
and the number of tool rounds executed.
-/

namespace RagSpec

/-- A tool definition is passed opaquely to the API; we model each entry as an
uninterpreted string. -/
abbrev ToolDef := String

/-- The keyword arguments of a tool invocation (`**block.input`), as an ordered
association list. -/
abbrev ToolInput := List (String × String)

/-- A content block of a model response: a text block (which has a `text`
attribute) or a tool-use block (`type == "tool_use"`, with `id`, `name`,
`input`). -/
inductive ContentBlock where
  | text (t : String)
  | toolUse (id : String) (name : String) (input : ToolInput)
deriving DecidableEq

/-- The fields of a tool-use block that the loop reads. -/
structure ToolUseBlock where
  id : String
  name : String
  input : ToolInput
deriving DecidableEq

/-- A model response: its `stop_reason` and its `content` block list. -/
structure ModelResponse where
  stop_reason : String
  content : List ContentBlock
deriving DecidableEq

/-- A tool-result dict as built by the loop:
`{"type": "tool_result", "tool_use_id": ..., "content": ...}`. -/
structure ToolResult where
  tool_use_id : String
  content : String
deriving DecidableEq

/-- The content of a message sent to the API: a plain string, the content list
of a prior assistant response, or a list of tool results. -/
inductive MsgContent where
  | ofString (s : String)
  | ofBlocks (bs : List ContentBlock)
  | ofResults (rs : List ToolResult)
deriving DecidableEq

/-- A message in the API `messages` list. -/
structure Message where
  role : String
  content : MsgContent
deriving DecidableEq

/-- The tool dispatcher (`tool_manager.execute_tool`): maps a tool name and
keyword input to `Except.error m` when the call raises an exception with
message `m`, and to `Except.ok r` when it returns result text `r`. -/
abbrev ToolManager := String → ToolInput → Except String String

/-- The Anthropic client modelled as an oracle: `client n` is the response the
model returns for the `n`-th call (0-indexed) of one `generate_response`
invocation. -/
abbrev Client := Nat → ModelResponse

/-- `self.base_params` as built in `__init__`. -/
structure BaseParams where
  model : String
  temperature : Int
  max_tokens : Nat
deriving DecidableEq

/-- The generator object: `api_key`, `model`, and the pre-built
`base_params`. -/
structure AIGenerator where
  api_key : String
  model : String
  base_params : BaseParams
deriving DecidableEq

/-- `AIGenerator.__init__`. -/
def AIGenerator.init (api_key : String) (model : String) : AIGenerator :=
  { api_key := api_key
    model := model
    base_params := { model := model, temperature := 0, max_tokens := 800 } }

/-- The static class attribute `SYSTEM_PROMPT`. -/
def SYSTEM_PROMPT : String :=
"You are an AI assistant specialized in course materials and educational content.\n\nAvailable Tools:\n1. **search_course_content** - Search lesson content for specific topics or concepts\n2. **get_course_outline** - Get course structure with title, link, and all lesson titles\n\nTool Selection:\n- Use **get_course_outline** for: \"What lessons are in [course]?\", \"Show me the outline of [course]\", \"What topics does [course] cover?\", course structure questions\n- Use **search_course_content** for: Questions about specific concepts, \"How does [course] explain [topic]?\", detailed content questions\n- Use **no tool** for: General knowledge questions, greetings\n\nMulti-Tool Usage:\n- You may use up to **2 tool calls** per query when needed\n- Use a second tool call when first search is insufficient or comparing multiple topics\n- Example: First get_course_outline to find lesson, then search_course_content for details\n\nRules:\n- If no results found, you may try a different search query or state clearly that no content matches\n- **No meta-commentary**: Provide direct answers only, don\x27t mention search results\n\nResponses must be:\n1. **Brief and focused**\n2. **Educational**\n3. **Clear**\n4. **Example-supported** when helpful\n"

/-- The parameter dict of one `client.messages.create(**params)` call.  The
`tools` and `tool_choice` fields are `none` exactly when the corresponding key
is absent from the dict. -/
structure ApiParams where
  model : String
  temperature : Int
  max_tokens : Nat
  messages : List Message
  system : String
  tools : Option (List ToolDef)
  tool_choice : Option String
deriving DecidableEq

/-- The observable outcome of one `generate_response` invocation: the returned
string (`none` when the Python code would raise, i.e. `response.content[0].text`
on a block without a `text` attribute or an empty content list), the parameters
of every model call in order, every dispatcher invocation in order (name and
keyword input as passed), and the final `round_count`. -/
structure RunResult where
  answer : Option String
  calls : List ApiParams
  toolCalls : List (String × ToolInput)
  rounds : Nat
deriving DecidableEq

/-- `MAX_ROUNDS` from `_handle_tool_execution`. -/
def MAX_ROUNDS : Nat := 2

/-- The list comprehension
`[block for block in response.content if block.type == "tool_use"]`. -/
def toolUseBlocks : List ContentBlock → List ToolUseBlock
  | [] => []
  | ContentBlock.toolUse i n inp :: rest => ⟨i, n, inp⟩ :: toolUseBlocks rest
  | ContentBlock.text _ :: rest => toolUseBlocks rest

/-- Python truthiness of `conversation_history` (`None` and `""` are falsy). -/
def truthyHistory : Option String → Bool
  | some s => !(s == "")
  | none => false

/-- Python truthiness of `tools` (`None` and the empty list are falsy). -/
def truthyTools : Option (List ToolDef) → Bool
  | some ts => !ts.isEmpty
  | none => false

/-- The `system_content` expression of `generate_response`. -/
def build_system_content (conversation_history : Option String) : String :=
  if truthyHistory conversation_history then
    SYSTEM_PROMPT ++ "\n\nPrevious conversation:\n" ++ conversation_history.getD ""
  else
    SYSTEM_PROMPT

/-- One iteration of the tool-execution `for` loop:
`try: result = tool_manager.execute_tool(block.name, **block.input)`
`except Exception as e: result = f"Tool execution failed: {str(e)}"`,
then the tool-result dict keyed by `block.id`. -/
def execBlock (tm : ToolManager) (b : ToolUseBlock) : ToolResult :=
  { tool_use_id := b.id
    content :=
      match tm b.name b.input with
      | Except.ok r => r
      | Except.error e => "Tool execution failed: " ++ e }

/-- The `tool_results` list built by one round of the loop, in the order of the
originating tool-use blocks. -/
def roundToolResults (tm : ToolManager) (blocks : List ToolUseBlock) : List ToolResult :=
  blocks.map (execBlock tm)

/-- The assistant message appended in a round:
`{"role": "assistant", "content": current_response.content}`. -/
def assistantMsg (r : ModelResponse) : Message :=
  { role := "assistant", content := MsgContent.ofBlocks r.content }

/-- The user message appended in a round:
`{"role": "user", "content": tool_results}`. -/
def toolResultsMsg (tm : ToolManager) (r : ModelResponse) : Message :=
  { role := "user", content := MsgContent.ofResults (roundToolResults tm (toolUseBlocks r.content)) }

/-- The (name, input) pairs handed to the dispatcher in one round. -/
def blockCalls (r : ModelResponse) : List (String × ToolInput) :=
  (toolUseBlocks r.content).map (fun b => (b.name, b.input))

/-- The `next_params` dict built from `self.base_params`, the accumulated
messages, the original system string, and — when `with_tools` — the original
tools with `tool_choice = auto`. -/
def next_api_params (self : AIGenerator) (base : ApiParams) (with_tools : Bool)
    (msgs : List Message) : ApiParams :=
  { model := self.base_params.model
    temperature := self.base_params.temperature
    max_tokens := self.base_params.max_tokens
    messages := msgs
    system := base.system
    tools := if with_tools then base.tools else none
    tool_choice := if with_tools then some "auto" else none }

/-- `response.content[0].text`: `none` when the Python expression raises
(empty content, or a first block without a `text` attribute). -/
def firstBlockText : List ContentBlock → Option String
  | ContentBlock.text t :: _ => some t
  | _ => none

/-- The block scan of `_extract_text_response`: the first block with a `text`
attribute wins, otherwise the fallback string. -/
def extractTextFromBlocks : List ContentBlock → String
  | [] => "Unable to generate a response."
  | ContentBlock.text t :: _ => t
  | ContentBlock.toolUse _ _ _ :: rest => extractTextFromBlocks rest

/-- `_extract_text_response`. -/
def extract_text_response (r : ModelResponse) : String :=
  extractTextFromBlocks r.content

/-- `hasattr(block, "text")`. -/
def hasTextAttr : ContentBlock → Bool
  | ContentBlock.text _ => true
  | ContentBlock.toolUse _ _ _ => false

/-- The `while round_count < MAX_ROUNDS` loop of `_handle_tool_execution`,
with `fuel = MAX_ROUNDS - round_count` as the structural decreasing measure:
the guard `round_count < MAX_ROUNDS` is exactly `fuel > 0`.  `n` is the index
of the next model call; `calls` and `tcs` accumulate the trace. -/
def handleRounds (self : AIGenerator) (client : Client) (tm : ToolManager)
    (base : ApiParams) :
    Nat → Nat → ModelResponse → List Message → Nat → List ApiParams →
    List (String × ToolInput) → RunResult
  | 0, rc, current, _msgs, _n, calls, tcs =>
    { answer := some (extract_text_response current)
      calls := calls, toolCalls := tcs, rounds := rc }
  | Nat.succ f, rc, current, msgs, n, calls, tcs =>
    if toolUseBlocks current.content = [] then
      { answer := some (extract_text_response current)
        calls := calls, toolCalls := tcs, rounds := rc }
    else
      let rc2 := rc + 1
      let msgs3 := msgs ++ [assistantMsg current] ++ [toolResultsMsg tm current]
      let with_tools := decide (rc2 < MAX_ROUNDS) && base.tools.isSome
      let nextParams := next_api_params self base with_tools msgs3
      let current2 := client n
      let calls2 := calls ++ [nextParams]
      let tcs2 := tcs ++ blockCalls current
      if current2.stop_reason ≠ "tool_use" then
        { answer := some (extract_text_response current2)
          calls := calls2, toolCalls := tcs2, rounds := rc2 }
      else
        handleRounds self client tm base f rc2 current2 msgs3 (n + 1) calls2 tcs2

/-- `_handle_tool_execution(initial_response, base_params, tool_manager)`:
starts from a copy of `base_params["messages"]`, round count 0, full round
budget; `calls0` is the trace of model calls already made (the initial one). -/
def handle_tool_execution (self : AIGenerator) (client : Client)
    (initial_response : ModelResponse) (base : ApiParams) (tm : ToolManager)
    (calls0 : List ApiParams) : RunResult :=
  handleRounds self client tm base MAX_ROUNDS 0 initial_response base.messages 1 calls0 []

/-- The `api_params` dict built at the top of `generate_response`. -/
def initial_api_params (self : AIGenerator) (query : String)
    (conversation_history : Option String) (tools : Option (List ToolDef)) : ApiParams :=
  { model := self.base_params.model
    temperature := self.base_params.temperature
    max_tokens := self.base_params.max_tokens
    messages := [{ role := "user", content := MsgContent.ofString query }]
    system := build_system_content conversation_history
    tools := if truthyTools tools then tools else none
    tool_choice := if truthyTools tools then some "auto" else none }

/-- `generate_response(query, conversation_history, tools, tool_manager)`.
The method assigns no attribute of `self`, so the state-passing embedding
returns `self` unchanged alongside the run trace. -/
def AIGenerator.generate_response (self : AIGenerator) (client : Client)
    (query : String) (conversation_history : Option String)
    (tools : Option (List ToolDef)) (tool_manager : Option ToolManager) :
    RunResult × AIGenerator :=
  let api_params := initial_api_params self query conversation_history tools
  let response := client 0
  let direct : RunResult :=
    { answer := firstBlockText response.content
      calls := [api_params], toolCalls := [], rounds := 0 }
  let res :=
    match tool_manager with
    | some tm =>
      if response.stop_reason = "tool_use" then
        handle_tool_execution self client response api_params tm [api_params]
      else direct
    | none => direct
  (res, self)

/-! Concrete scenario data used by the witness theorems. -/

/-- A concrete generator. -/
def wGen : AIGenerator := AIGenerator.init "key" "claude"

/-- A concrete tool-use block. -/
def wBlock : ContentBlock :=
  ContentBlock.toolUse "tu1" "search_course_content" [("query", "lesson")]

/-- A concrete response requesting tool use. -/
def wToolResp : ModelResponse := { stop_reason := "tool_use", content := [wBlock] }

/-- A concrete terminal text response. -/
def wTextResp : ModelResponse :=
  { stop_reason := "end_turn", content := [ContentBlock.text "final answer"] }

/-- A client whose first response requests one tool use and whose later
responses are terminal text. -/
def wClientOne : Client := fun n => if n = 0 then wToolResp else wTextResp

/-- A client that requests tool use on every response. -/
def wClientLoop : Client := fun _ => wToolResp

/-- A client that never requests tool use. -/
def wClientText : Client := fun _ => wTextResp

/-- A dispatcher that always succeeds. -/
def wTm : ToolManager := fun _ _ => Except.ok "result text"

/-- A dispatcher that always raises. -/
def wTmFail : ToolManager := fun _ _ => Except.error "boom"

/-! Unfolding and scenario lemmas for the loop. -/

theorem handleRounds_zero (self : AIGenerator) (client : Client) (tm : ToolManager)
    (base : ApiParams) (rc : Nat) (cur : ModelResponse) (msgs : List Message) (n : Nat)
    (calls : List ApiParams) (tcs : List (String × ToolInput)) :
    handleRounds self client tm base 0 rc cur msgs n calls tcs =
      { answer := some (extract_text_response cur)
        calls := calls, toolCalls := tcs, rounds := rc } := rfl

theorem handleRounds_succ (self : AIGenerator) (client : Client) (tm : ToolManager)
    (base : ApiParams) (f rc : Nat) (cur : ModelResponse) (msgs : List Message) (n : Nat)
    (calls : List ApiParams) (tcs : List (String × ToolInput)) :
    handleRounds self client tm base (Nat.succ f) rc cur msgs n calls tcs =
      (if toolUseBlocks cur.content = [] then
        { answer := some (extract_text_response cur)
          calls := calls, toolCalls := tcs, rounds := rc }
      else
        let msgs3 := msgs ++ [assistantMsg cur] ++ [toolResultsMsg tm cur]
        let nextParams := next_api_params self base
          (decide (rc + 1 < MAX_ROUNDS) && base.tools.isSome) msgs3
        if (client n).stop_reason ≠ "tool_use" then
          { answer := some (extract_text_response (client n))
            calls := calls ++ [nextParams], toolCalls := tcs ++ blockCalls cur
            rounds := rc + 1 }
        else
          handleRounds self client tm base f (rc + 1) (client n) msgs3 (n + 1)
            (calls ++ [nextParams]) (tcs ++ blockCalls cur)) := rfl

theorem MAX_ROUNDS_eq : MAX_ROUNDS = Nat.succ (Nat.succ 0) := rfl

/-- Scenario: the initial response carries no tool-use block; the loop exits at
once with zero rounds. -/
theorem hte_zero_rounds (self : AIGenerator) (client : Client) (tm : ToolManager)
    (r0 : ModelResponse) (base : ApiParams) (calls0 : List ApiParams)
    (hb0 : toolUseBlocks r0.content = []) :
    handle_tool_execution self client r0 base tm calls0 =
      { answer := some (extract_text_response r0)
        calls := calls0, toolCalls := [], rounds := 0 } := by
  rw [handle_tool_execution, MAX_ROUNDS_eq, handleRounds_succ]
  simp [hb0]

/-- Scenario: one round executes and the loop then stops, either because the
second response's stop reason is not tool use or because it carries no
tool-use block. -/
theorem hte_one_round (self : AIGenerator) (client : Client) (tm : ToolManager)
    (r0 : ModelResponse) (base : ApiParams) (calls0 : List ApiParams)
    (hb0 : toolUseBlocks r0.content ≠ [])
    (hdone : ¬ (client 1).stop_reason = "tool_use" ∨ toolUseBlocks (client 1).content = []) :
    handle_tool_execution self client r0 base tm calls0 =
      { answer := some (extract_text_response (client 1))
        calls := calls0 ++ [next_api_params self base base.tools.isSome
          (base.messages ++ [assistantMsg r0, toolResultsMsg tm r0])]
        toolCalls := blockCalls r0
        rounds := 1 } := by
  rw [handle_tool_execution, MAX_ROUNDS_eq, handleRounds_succ]
  rcases hdone with hs1 | hb1
  · simp [hb0, hs1, MAX_ROUNDS]
  · by_cases hs1 : (client 1).stop_reason = "tool_use"
    · simp [hb0, hs1, hb1, MAX_ROUNDS, handleRounds_succ]
    · simp [hb0, hs1, MAX_ROUNDS]

/-- Scenario: both rounds execute; the third model call is made without tools
and its response is terminal whatever its stop reason. -/
theorem hte_two_rounds (self : AIGenerator) (client : Client) (tm : ToolManager)
    (r0 : ModelResponse) (base : ApiParams) (calls0 : List ApiParams)
    (hb0 : toolUseBlocks r0.content ≠ [])
    (hs1 : (client 1).stop_reason = "tool_use")
    (hb1 : toolUseBlocks (client 1).content ≠ []) :
    handle_tool_execution self client r0 base tm calls0 =
      { answer := some (extract_text_response (client 2))
        calls := calls0 ++
          [next_api_params self base base.tools.isSome
            (base.messages ++ [assistantMsg r0, toolResultsMsg tm r0]),
           next_api_params self base false
            (base.messages ++ [assistantMsg r0, toolResultsMsg tm r0,
              assistantMsg (client 1), toolResultsMsg tm (client 1)])]
        toolCalls := blockCalls r0 ++ blockCalls (client 1)
        rounds := 2 } := by
  rw [handle_tool_execution, MAX_ROUNDS_eq, handleRounds_succ]
  by_cases hs2 : (client 2).stop_reason = "tool_use"
  · simp [hb0, hs1, hb1, hs2, MAX_ROUNDS, handleRounds_succ, handleRounds_zero]
  · simp [hb0, hs1, hb1, hs2, MAX_ROUNDS, handleRounds_succ]

/-- When the first response requests tool use and a dispatcher is present,
`generate_response` hands off to `_handle_tool_execution`. -/
theorem gen_tool_path (self : AIGenerator) (client : Client) (query : String)
    (hist : Option String) (ts : Option (List ToolDef)) (tm : ToolManager)
    (h0 : (client 0).stop_reason = "tool_use") :
    (self.generate_response client query hist ts (some tm)).1 =
      handle_tool_execution self client (client 0)
        (initial_api_params self query hist ts) tm
        [initial_api_params self query hist ts] := by
  simp [AIGenerator.generate_response, h0]

/-- When the first response does not request tool use, `generate_response`
returns directly after one call. -/
theorem gen_direct_stop (self : AIGenerator) (client : Client) (query : String)
    (hist : Option String) (ts : Option (List ToolDef)) (tmo : Option ToolManager)
    (h0 : ¬ (client 0).stop_reason = "tool_use") :
    (self.generate_response client query hist ts tmo).1 =
      { answer := firstBlockText (client 0).content
        calls := [initial_api_params self query hist ts]
        toolCalls := [], rounds := 0 } := by
  cases tmo <;> simp [AIGenerator.generate_response, h0]

/-- When no dispatcher is supplied, `generate_response` returns directly after
one call whatever the stop reason. -/
theorem gen_direct_noManager (self : AIGenerator) (client : Client) (query : String)
    (hist : Option String) (ts : Option (List ToolDef)) :
    (self.generate_response client query hist ts none).1 =
      { answer := firstBlockText (client 0).content
        calls := [initial_api_params self query hist ts]
        toolCalls := [], rounds := 0 } := by
  simp [AIGenerator.generate_response]

/-- Loop invariant: the loop always produces a (textual) answer, and it only
appends model calls whose `system` string and base parameters are those it was
given. -/
theorem handleRounds_invariant (self : AIGenerator) (client : Client) (tm : ToolManager)
    (base : ApiParams) :
    ∀ (f rc : Nat) (cur : ModelResponse) (msgs : List Message) (n : Nat)
      (calls : List ApiParams) (tcs : List (String × ToolInput)),
      (handleRounds self client tm base f rc cur msgs n calls tcs).answer.isSome = true ∧
      ∃ suffix : List ApiParams,
        (handleRounds self client tm base f rc cur msgs n calls tcs).calls =
          calls ++ suffix ∧
        ∀ p ∈ suffix, p.system = base.system ∧ p.model = self.base_params.model ∧
          p.temperature = self.base_params.temperature ∧
          p.max_tokens = self.base_params.max_tokens := by
  intro f
  induction f with
  | zero =>
    intro rc cur msgs n calls tcs
    rw [handleRounds_zero]
    exact ⟨rfl, [], by simp, by simp⟩
  | succ f ih =>
    intro rc cur msgs n calls tcs
    rw [handleRounds_succ]
    by_cases hb : toolUseBlocks cur.content = []
    · simp only [hb, if_pos]
      exact ⟨rfl, [], by simp, by simp⟩
    · simp only [hb, if_neg, ite_false]
      by_cases hs : (client n).stop_reason = "tool_use"

      · simp only [hs, ne_eq, not_true_eq_false, ite_false]
        rcases ih (rc + 1) (client n) (msgs ++ [assistantMsg cur] ++ [toolResultsMsg tm cur])
          (n + 1)
          (calls ++ [next_api_params self base
            (decide (rc + 1 < MAX_ROUNDS) && base.tools.isSome)
            (msgs ++ [assistantMsg cur] ++ [toolResultsMsg tm cur])])
          (tcs ++ blockCalls cur) with ⟨ha, suffix, hcalls, hmem⟩
        refine ⟨ha, next_api_params self base
            (decide (rc + 1 < MAX_ROUNDS) && base.tools.isSome)
            (msgs ++ [assistantMsg cur] ++ [toolResultsMsg tm cur]) :: suffix, ?_, ?_⟩
        · rw [hcalls]; simp
        · intro p hp
          rcases List.mem_cons.mp hp with hp | hp
          · subst hp; simp [next_api_params]
          · exact hmem p hp
      · simp only [hs, ne_eq, not_false_eq_true, ite_true]
        refine ⟨rfl, [next_api_params self base
            (decide (rc + 1 < MAX_ROUNDS) && base.tools.isSome)
            (msgs ++ [assistantMsg cur] ++ [toolResultsMsg tm cur])], rfl, ?_⟩
        intro p hp
        rcases List.mem_singleton.mp hp with rfl
        simp [next_api_params]

/-- Every model call of a run uses the system string built at the start, the
configured model, temperature and max token count; and the first call is the
initial one. -/
theorem generate_response_calls (self : AIGenerator) (client : Client) (query : String)
    (hist : Option String) (ts : Option (List ToolDef)) (tmo : Option ToolManager) :
    ∃ suffix : List ApiParams,
      ((self.generate_response client query hist ts tmo).1).calls =
        initial_api_params self query hist ts :: suffix ∧
      ∀ p ∈ suffix, p.system = build_system_content hist ∧
        p.model = self.base_params.model ∧
        p.temperature = self.base_params.temperature ∧
        p.max_tokens = self.base_params.max_tokens := by
  cases tmo with
  | none =>
    rw [gen_direct_noManager]
    exact ⟨[], by simp, by simp⟩
  | some tm =>
    by_cases h0 : (client 0).stop_reason = "tool_use"
    · rw [gen_tool_path self client query hist ts tm h0, handle_tool_execution]
      rcases handleRounds_invariant self client tm (initial_api_params self query hist ts)
        MAX_ROUNDS 0 (client 0) (initial_api_params self query hist ts).messages 1
        [initial_api_params self query hist ts] [] with ⟨-, suffix, hcalls, hmem⟩
      refine ⟨suffix, by simpa using hcalls, ?_⟩
      intro p hp
      have h := hmem p hp
      simpa [initial_api_params] using h
    · rw [gen_direct_stop self client query hist ts (some tm) h0]
      exact ⟨[], by simp, by simp⟩

/-- C1: for every query whose first model response requests tool use and where
a dispatcher is provided, if `k ≤ MAX_ROUNDS` tool-use rounds occur then
`generate_response` makes exactly `k + 1` model calls, and the dispatcher is
invoked exactly once per tool-use block across the rounds, with each block's
name and input passed unchanged. -/
theorem C1_calls_and_dispatches (self : AIGenerator) (client : Client) (query : String)
    (hist : Option String) (ts : Option (List ToolDef)) (tm : ToolManager) (k : Nat)
    (h0 : (client 0).stop_reason = "tool_use")
    (hk : k ≤ MAX_ROUNDS)
    (hr : ((self.generate_response client query hist ts (some tm)).1).rounds = k) :
    ((self.generate_response client query hist ts (some tm)).1).calls.length = k + 1 ∧
    ((self.generate_response client query hist ts (some tm)).1).toolCalls =
      (List.range k).flatMap (fun i => blockCalls (client i)) := by
  rw [gen_tool_path self client query hist ts tm h0] at hr ⊢
  by_cases hb0 : toolUseBlocks (client 0).content = []
  · rw [hte_zero_rounds _ _ _ _ _ _ hb0] at hr ⊢
    simp only at hr
    subst hr
    simp
  · by_cases hs1 : (client 1).stop_reason = "tool_use"
    · by_cases hb1 : toolUseBlocks (client 1).content = []
      · rw [hte_one_round _ _ _ _ _ _ hb0 (Or.inr hb1)] at hr ⊢
        simp only at hr
        subst hr
        simp [List.range_succ]
      · rw [hte_two_rounds _ _ _ _ _ _ hb0 hs1 hb1] at hr ⊢
        simp only at hr
        subst hr
        simp [List.range_succ]
    · rw [hte_one_round _ _ _ _ _ _ hb0 (Or.inl hs1)] at hr ⊢
      simp only at hr
      subst hr
      simp [List.range_succ]

/-- C1 witness: a concrete one-round run makes two model calls and dispatches
once per tool-use block. -/
theorem C1_witness :
    ((wGen.generate_response wClientOne "q" none none (some wTm)).1).calls.length = 1 + 1 ∧
    ((wGen.generate_response wClientOne "q" none none (some wTm)).1).toolCalls =
      (List.range 1).flatMap (fun i => blockCalls (wClientOne i)) :=
  C1_calls_and_dispatches wGen wClientOne "q" none none wTm 1 rfl (by decide) rfl

/-- C2: when the model requests tool use on every response, the loop performs
exactly `MAX_ROUNDS` tool-execution rounds and then one final model call whose
parameter dict omits the tool definitions and the tool-choice parameter; the
loop terminates with that final call's response treated as terminal whatever
its stop reason. -/
theorem C2_round_budget (self : AIGenerator) (client : Client) (query : String)
    (hist : Option String) (ts : Option (List ToolDef)) (tm : ToolManager)
    (hall : ∀ i, (client i).stop_reason = "tool_use" ∧ toolUseBlocks (client i).content ≠ []) :
    ((self.generate_response client query hist ts (some tm)).1).rounds = MAX_ROUNDS ∧
    ((self.generate_response client query hist ts (some tm)).1).calls.length = MAX_ROUNDS + 1 ∧
    (∃ p, ((self.generate_response client query hist ts (some tm)).1).calls.getLast? = some p ∧
      p.tools = none ∧ p.tool_choice = none) ∧
    ((self.generate_response client query hist ts (some tm)).1).answer =
      some (extract_text_response (client 2)) := by
  rw [gen_tool_path self client query hist ts tm (hall 0).1]
  rw [hte_two_rounds _ _ _ _ _ _ (hall 0).2 (hall 1).1 (hall 1).2]
  refine ⟨rfl, by simp [MAX_ROUNDS], ?_, rfl⟩
  refine ⟨next_api_params self (initial_api_params self query hist ts) false
    ((initial_api_params self query hist ts).messages ++
      [assistantMsg (client 0), toolResultsMsg tm (client 0),
       assistantMsg (client 1), toolResultsMsg tm (client 1)]), rfl, ?_, ?_⟩
  · simp [next_api_params]
  · simp [next_api_params]

/-- C2 witness: a concrete client that always requests tools yields two rounds,
three calls, a final call without tools, and a terminal answer. -/
theorem C2_witness :
    ((wGen.generate_response wClientLoop "q" none none (some wTm)).1).rounds = MAX_ROUNDS ∧
    ((wGen.generate_response wClientLoop "q" none none (some wTm)).1).calls.length =
      MAX_ROUNDS + 1 ∧
    (∃ p, ((wGen.generate_response wClientLoop "q" none none (some wTm)).1).calls.getLast? =
      some p ∧ p.tools = none ∧ p.tool_choice = none) ∧
    ((wGen.generate_response wClientLoop "q" none none (some wTm)).1).answer =
      some (extract_text_response (wClientLoop 2)) :=
  C2_round_budget wGen wClientLoop "q" none none wTm
    (fun _ => ⟨rfl, by show toolUseBlocks wToolResp.content ≠ []; decide⟩)

/-- C3: when the first response's stop reason is not tool use, exactly one
model call is made and the text of the response's first content block is
returned unmodified. -/
theorem C3_direct_path (self : AIGenerator) (client : Client) (query : String)
    (hist : Option String) (ts : Option (List ToolDef)) (tmo : Option ToolManager)
    (t : String) (rest : List ContentBlock)
    (h0 : (client 0).stop_reason ≠ "tool_use")
    (hc : (client 0).content = ContentBlock.text t :: rest) :
    ((self.generate_response client query hist ts tmo).1).calls.length = 1 ∧
    ((self.generate_response client query hist ts tmo).1).answer = some t := by
  rw [gen_direct_stop self client query hist ts tmo h0]
  simp [hc, firstBlockText]

/-- C3 witness: a concrete non-tool response is returned verbatim after one
call. -/
theorem C3_witness :
    ((wGen.generate_response wClientText "q" none none none).1).calls.length = 1 ∧
    ((wGen.generate_response wClientText "q" none none none).1).answer =
      some "final answer" :=
  C3_direct_path wGen wClientText "q" none none none "final answer" [] (by decide) rfl

/-- C4: after `k` tool-use rounds the message list passed to the next model
call is the initial user message followed, per round, by one assistant message
carrying the full prior response content and one user message carrying that
round's ordered tool results; its length is `1 + 2 * k`. -/
theorem C4_message_transcript (self : AIGenerator) (client : Client) (query : String)
    (hist : Option String) (ts : Option (List ToolDef)) (tm : ToolManager) (k : Nat)
    (h0 : (client 0).stop_reason = "tool_use")
    (hr : ((self.generate_response client query hist ts (some tm)).1).rounds = k) :
    ∃ p, ((self.generate_response client query hist ts (some tm)).1).calls.getLast? =
        some p ∧
      p.messages = { role := "user", content := MsgContent.ofString query } ::
        (List.range k).flatMap
          (fun i => [assistantMsg (client i), toolResultsMsg tm (client i)]) ∧
      p.messages.length = 1 + 2 * k := by
  rw [gen_tool_path self client query hist ts tm h0] at hr ⊢
  by_cases hb0 : toolUseBlocks (client 0).content = []
  · rw [hte_zero_rounds _ _ _ _ _ _ hb0] at hr ⊢
    simp only at hr
    subst hr
    exact ⟨initial_api_params self query hist ts, rfl, by simp [initial_api_params], by
      simp [initial_api_params]⟩
  · by_cases hs1 : (client 1).stop_reason = "tool_use"
    · by_cases hb1 : toolUseBlocks (client 1).content = []
      · rw [hte_one_round _ _ _ _ _ _ hb0 (Or.inr hb1)] at hr ⊢
        simp only at hr
        subst hr
        refine ⟨_, rfl, ?_, ?_⟩
        · simp [next_api_params, initial_api_params, List.range_succ]
        · simp [next_api_params, initial_api_params]
      · rw [hte_two_rounds _ _ _ _ _ _ hb0 hs1 hb1] at hr ⊢
        simp only at hr
        subst hr
        refine ⟨_, rfl, ?_, ?_⟩
        · simp [next_api_params, initial_api_params, List.range_succ]
        · simp [next_api_params, initial_api_params]
    · rw [hte_one_round _ _ _ _ _ _ hb0 (Or.inl hs1)] at hr ⊢
      simp only at hr
      subst hr
      refine ⟨_, rfl, ?_, ?_⟩
      · simp [next_api_params, initial_api_params, List.range_succ]
      · simp [next_api_params, initial_api_params]

/-- C4 witness: a concrete one-round run whose terminal call carries the
three-message transcript. -/
theorem C4_witness :
    ∃ p, ((wGen.generate_response wClientOne "q" none none (some wTm)).1).calls.getLast? =
        some p ∧
      p.messages = { role := "user", content := MsgContent.ofString "q" } ::
        (List.range 1).flatMap
          (fun i => [assistantMsg (wClientOne i), toolResultsMsg wTm (wClientOne i)]) ∧
      p.messages.length = 1 + 2 * 1 :=
  C4_message_transcript wGen wClientOne "q" none none wTm 1 rfl rfl

/-- C5: the tool-result blocks built in a round carry exactly the ids of the
tool-use blocks they answer, in the same order as those blocks appear in the
response content. -/
theorem C5_result_ids_match (tm : ToolManager) (r : ModelResponse) :
    (roundToolResults tm (toolUseBlocks r.content)).map ToolResult.tool_use_id =
      (toolUseBlocks r.content).map ToolUseBlock.id := by
  simp [roundToolResults, execBlock, Function.comp]

/-- Helper: a failing dispatch is still all of the blocks executed. -/
theorem roundToolResults_length (tm : ToolManager) (blocks : List ToolUseBlock) :
    (roundToolResults tm blocks).length = blocks.length := by
  simp [roundToolResults]

/-- C6: a dispatch that raises with message `m` yields the tool-result text
`"Tool execution failed: " ++ m` instead of propagating; every block of the
round is still executed; and the loop still reaches a terminal textual
answer. -/
theorem C6_failure_recovery (tm : ToolManager) (id name : String) (input : ToolInput)
    (m : String) (self : AIGenerator) (client : Client) (query : String)
    (hist : Option String) (ts : Option (List ToolDef))
    (hfail : tm name input = Except.error m)
    (h0 : (client 0).stop_reason = "tool_use") :
    execBlock tm { id := id, name := name, input := input } =
      { tool_use_id := id, content := "Tool execution failed: " ++ m } ∧
    (∀ blocks : List ToolUseBlock,
      (roundToolResults tm blocks).length = blocks.length) ∧
    ((self.generate_response client query hist ts (some tm)).1).answer.isSome = true := by
  refine ⟨?_, roundToolResults_length tm, ?_⟩
  · simp [execBlock, hfail]
  · rw [gen_tool_path self client query hist ts tm h0, handle_tool_execution]
    exact (handleRounds_invariant self client tm (initial_api_params self query hist ts)
      MAX_ROUNDS 0 (client 0) (initial_api_params self query hist ts).messages 1
      [initial_api_params self query hist ts] []).1

/-- C6 witness: a concrete always-raising dispatcher produces the tagged
failure text, executes both blocks of a round, and the run still answers. -/
theorem C6_witness :
    execBlock wTmFail
      { id := "tu1", name := "search_course_content", input := [("query", "lesson")] } =
      { tool_use_id := "tu1", content := "Tool execution failed: " ++ "boom" } ∧
    (roundToolResults wTmFail
      [{ id := "a", name := "t1", input := [] }, { id := "b", name := "t2", input := [] }]).length =
      ([{ id := "a", name := "t1", input := [] },
        { id := "b", name := "t2", input := [] }] : List ToolUseBlock).length ∧
    ((wGen.generate_response wClientOne "q" none none (some wTmFail)).1).answer.isSome = true := by
  have h := C6_failure_recovery wTmFail "tu1" "search_course_content" [("query", "lesson")]
    "boom" wGen wClientOne "q" none none rfl rfl
  exact ⟨h.1, h.2.1 _, h.2.2⟩

/-- Helper: scanning a block list with no text attribute yields the
fallback. -/
theorem extractTextFromBlocks_no_text :
    ∀ bs : List ContentBlock, (∀ b ∈ bs, hasTextAttr b = false) →
      extractTextFromBlocks bs = "Unable to generate a response." := by
  intro bs
  induction bs with
  | nil => intro _; rfl
  | cons b rest ih =>
    intro h
    cases b with
    | text t =>
      exact absurd (h (ContentBlock.text t) (List.mem_cons_self _ _))
        (by simp [hasTextAttr])
    | toolUse i n inp =>
      have hstep : extractTextFromBlocks (ContentBlock.toolUse i n inp :: rest) =
          extractTextFromBlocks rest := rfl
      rw [hstep]
      exact ih (fun b hb => h b (by simp [hb]))

/-- Helper: the first block carrying a text attribute wins. -/
theorem extractTextFromBlocks_first_text :
    ∀ pre : List ContentBlock, (∀ b ∈ pre, hasTextAttr b = false) →
      ∀ (t : String) (post : List ContentBlock),
        extractTextFromBlocks (pre ++ ContentBlock.text t :: post) = t := by
  intro pre
  induction pre with
  | nil => intro _ t post; rfl
  | cons b rest ih =>
    intro h t post
    cases b with
    | text u =>
      exact absurd (h (ContentBlock.text u) (List.mem_cons_self _ _))
        (by simp [hasTextAttr])
    | toolUse i n inp =>
      have hstep : extractTextFromBlocks
          (ContentBlock.toolUse i n inp :: (rest ++ ContentBlock.text t :: post)) =
          extractTextFromBlocks (rest ++ ContentBlock.text t :: post) := rfl
      rw [List.cons_append, hstep]
      exact ih (fun b hb => h b (by simp [hb])) t post

/-- C7: terminal text extraction is total — it returns the text of the first
content block carrying a text field, and the fallback string when no block
carries one. -/
theorem C7_extraction_total :
    (∀ r : ModelResponse, (∀ b ∈ r.content, hasTextAttr b = false) →
      extract_text_response r = "Unable to generate a response.") ∧
    (∀ (sr : String) (pre : List ContentBlock) (t : String) (post : List ContentBlock),
      (∀ b ∈ pre, hasTextAttr b = false) →
      extract_text_response
        { stop_reason := sr, content := pre ++ ContentBlock.text t :: post } = t) :=
  ⟨fun r h => extractTextFromBlocks_no_text r.content h,
   fun _ pre t post h => extractTextFromBlocks_first_text pre h t post⟩

/-- C7 witness: a tool-use-only response falls back, and a mixed response
returns its first text block. -/
theorem C7_witness :
    extract_text_response
      { stop_reason := "end_turn", content := [ContentBlock.toolUse "a" "b" []] } =
      "Unable to generate a response." ∧
    extract_text_response
      { stop_reason := "end_turn"
        content := [ContentBlock.toolUse "a" "b" [], ContentBlock.text "hi",
          ContentBlock.text "later"] } = "hi" :=
  ⟨C7_extraction_total.1 _ (by decide),
   C7_extraction_total.2 "end_turn" [ContentBlock.toolUse "a" "b" []] "hi"
     [ContentBlock.text "later"] (by decide)⟩

/-- C8: the system string sent with every model call of a query equals the
static system prompt when the conversation history is absent or empty, and the
prompt suffixed with the rendered history block otherwise; and the initial
message list is exactly one user message containing the query. -/
theorem C8_system_string (self : AIGenerator) (client : Client) (query : String)
    (hist : Option String) (ts : Option (List ToolDef)) (tmo : Option ToolManager) :
    (((self.generate_response client query hist ts tmo).1).calls.all
      (fun p => p.system ==
        (match hist with
         | none => SYSTEM_PROMPT
         | some s =>
           if s = "" then SYSTEM_PROMPT
           else SYSTEM_PROMPT ++ "\n\nPrevious conversation:\n" ++ s))) = true ∧
    (((self.generate_response client query hist ts tmo).1).calls.head?).map
      ApiParams.messages =
      some [{ role := "user", content := MsgContent.ofString query }] := by
  have hsys : build_system_content hist =
      (match hist with
       | none => SYSTEM_PROMPT
       | some s =>
         if s = "" then SYSTEM_PROMPT
         else SYSTEM_PROMPT ++ "\n\nPrevious conversation:\n" ++ s) := by
    cases hist with
    | none => rfl
    | some s =>
      by_cases hs : s = ""
      · simp [build_system_content, truthyHistory, hs]
      · simp [build_system_content, truthyHistory, hs]
  rcases generate_response_calls self client query hist ts tmo with ⟨suffix, hcalls, hmem⟩
  rw [hcalls]
  constructor
  · rw [List.all_eq_true]
    intro p hp
    rcases List.mem_cons.mp hp with rfl | hp
    · simp [initial_api_params, hsys]
    · have hps := (hmem p hp).1
      rw [hsys] at hps
      simp [hps]
  · simp [initial_api_params]

/-- C9: with tools provided but no dispatcher, a tool-use first response leads
to exactly one model call, no tool execution, and the return of the first
content block's text field — which does not exist when the response consists
only of tool-use blocks. -/
theorem C9_tools_without_manager (self : AIGenerator) (client : Client) (query : String)
    (hist : Option String) (ts : List ToolDef)
    (hts : ts ≠ [])
    (h0 : (client 0).stop_reason = "tool_use") :
    ((self.generate_response client query hist (some ts) none).1).calls.length = 1 ∧
    ((self.generate_response client query hist (some ts) none).1).toolCalls = [] ∧
    ((self.generate_response client query hist (some ts) none).1).answer =
      firstBlockText (client 0).content ∧
    ((∀ b ∈ (client 0).content, hasTextAttr b = false) →
      ((self.generate_response client query hist (some ts) none).1).answer = none) := by
  rw [gen_direct_noManager]
  refine ⟨by simp, rfl, rfl, ?_⟩
  intro h
  rcases hc : (client 0).content with - | ⟨b, rest⟩
  · simp [firstBlockText]
  · cases b with
    | text t =>
      have hb := h (ContentBlock.text t) (by rw [hc]; exact List.mem_cons_self _ _)
      exact absurd hb (by simp [hasTextAttr])
    | toolUse i n inp => simp [hc, firstBlockText]

/-- C9 witness: a concrete tool-use-only response with tools but no dispatcher
gives one call, no dispatch, and an undefined (`none`) return value. -/
theorem C9_witness :
    ((wGen.generate_response wClientLoop "q" none (some ["tooldef"]) none).1).calls.length = 1 ∧
    ((wGen.generate_response wClientLoop "q" none (some ["tooldef"]) none).1).toolCalls = [] ∧
    ((wGen.generate_response wClientLoop "q" none (some ["tooldef"]) none).1).answer =
      firstBlockText (wClientLoop 0).content ∧
    ((wGen.generate_response wClientLoop "q" none (some ["tooldef"]) none).1).answer = none := by
  have h := C9_tools_without_manager wGen wClientLoop "q" none ["tooldef"] (by decide) rfl
  exact ⟨h.1, h.2.1, h.2.2.1, h.2.2.2 (by decide)⟩

/-- C10: a call of `generate_response` leaves the generator unchanged, every
model call of the run uses the generator's pre-built base parameters, and the
initial message list stays the single user message with the query — the loop
appends only to its own copy. -/
theorem C10_generator_frame (self : AIGenerator) (client : Client) (query : String)
    (hist : Option String) (ts : Option (List ToolDef)) (tmo : Option ToolManager) :
    (self.generate_response client query hist ts tmo).2 = self ∧
    (((self.generate_response client query hist ts tmo).1).calls.all
      (fun p => p.model == self.base_params.model &&
        p.temperature == self.base_params.temperature &&
        p.max_tokens == self.base_params.max_tokens)) = true ∧
    (((self.generate_response client query hist ts tmo).1).calls.head?).map
      ApiParams.messages =
      some [{ role := "user", content := MsgContent.ofString query }] := by
  rcases generate_response_calls self client query hist ts tmo with ⟨suffix, hcalls, hmem⟩
  refine ⟨rfl, ?_, ?_⟩
  · rw [hcalls, List.all_eq_true]
    intro p hp
    rcases List.mem_cons.mp hp with rfl | hp
    · simp [initial_api_params]
    · rcases hmem p hp with ⟨-, h1, h2, h3⟩
      simp [h1, h2, h3]
  · rw [hcalls]
    simp [initial_api_params]

end RagSpec
